import Mathlib

/-!
Shallow embedding of the real-time measurement harness
(rt_time.h, threading.h, posix_clock.cpp) and proofs about it.

Conventions:
* C `long` fields are modelled as `Int` (the values involved stay far from
  the 64-bit range, so wrap-around never matters for these claims).
* An out-parameter `timespec&` is modelled by passing the prior contents in
  and returning the (possibly updated) contents alongside the error code.
* OS calls are modelled by an oracle record holding their return codes.
-/

namespace cmn

/-- Error codes from `error_codes.h` (the week2 revision, which is the one
`rt_time.h` and `posix_clock.cpp` compile against: it has `CLOCK_ERROR` and
`TEST_FAILED`).  Modelled by their C enumerator values; note that the
unvalued enumerator `GENERAL_ERR` follows `TEST_FAILED = -11`, so it equals
`-10`, aliasing `CLOCK_ERROR`. -/
abbrev ErrCode := Int

def ErrCode.OK : ErrCode := 0
def ErrCode.PTHREAD_ERR : ErrCode := -1
def ErrCode.NOT_READY : ErrCode := -2
def ErrCode.NOT_SUPPORTED : ErrCode := -3
def ErrCode.NOT_ENABLED : ErrCode := -4
def ErrCode.NOT_IMPLEMENTED : ErrCode := -5
def ErrCode.ALREADY_ENABLED : ErrCode := -6
def ErrCode.OVERFLOW : ErrCode := -7
def ErrCode.SCHED_FAILURE : ErrCode := -8
def ErrCode.INVALID_ARGS : ErrCode := -9
def ErrCode.CLOCK_ERROR : ErrCode := -10
def ErrCode.TEST_FAILED : ErrCode := -11
def ErrCode.GENERAL_ERR : ErrCode := -10

end cmn

namespace rt_time

/-- `struct timespec`: seconds and nanoseconds, both C `long`. -/
structure Timespec where
  tv_sec : Int
  tv_nsec : Int
  deriving DecidableEq, Repr

/-- `NSEC_PER_SEC` from rt_time.h. -/
def NSEC_PER_SEC : Int := 1000000000

/-- `NSEC_PER_MSEC` from rt_time.h. -/
def NSEC_PER_MSEC : Int := 1000000

/-- `enum ClockTypeId` from rt_time.h. -/
inductive ClockTypeId where
  | RealTime
  | Monotonic
  | MonotonicRaw
  | RealTimeCoarse
  | MonotonicCoarse
  deriving DecidableEq, Repr

/-- `timeDiffInTimespec` from rt_time.h (lines 75-148), translated branch by
branch.  The out-parameter `rtDiff` is modelled by taking its prior contents
and returning the contents after the call; on paths where the C code does
not assign a field, the prior value of that field flows through (this is in
particular what `++rtDiff.tv_sec;` on line 134 does: it increments whatever
`rtDiff.tv_sec` held before the call). -/
def timeDiffInTimespec (rtStart rtStop rtDiff : Timespec)
    (rbIgnoreNegDelta : Bool) : cmn.ErrCode × Timespec :=
  let dDeltaSec : Int := rtStop.tv_sec - rtStart.tv_sec
  let dDeltaNsec : Int := rtStop.tv_nsec - rtStart.tv_nsec
  if dDeltaSec = 0 then
    if dDeltaNsec < 0 then
      -- The end point occurs earlier than the start.
      if ¬ rbIgnoreNegDelta then
        (cmn.ErrCode.OVERFLOW, rtDiff)
      else
        (cmn.ErrCode.OK, rtDiff)
    else
      -- Case 1: the time span is less than a second.
      if dDeltaNsec ≥ 0 ∧ dDeltaNsec < NSEC_PER_SEC then
        (cmn.ErrCode.OK, { tv_sec := 0, tv_nsec := dDeltaNsec })
      else
        -- Rollover, correct to +1 second.
        (cmn.ErrCode.OK, { tv_sec := 1, tv_nsec := dDeltaNsec - NSEC_PER_SEC })
  else
    -- Case 2: more than one second span.
    if dDeltaNsec ≥ 0 ∧ dDeltaNsec < NSEC_PER_SEC then
      (cmn.ErrCode.OK, { tv_sec := dDeltaSec, tv_nsec := dDeltaNsec })
    else
      if dDeltaNsec > NSEC_PER_SEC then
        -- One second rollover: `++rtDiff.tv_sec` increments the prior value.
        (cmn.ErrCode.OK,
          { tv_sec := rtDiff.tv_sec + 1, tv_nsec := dDeltaNsec - NSEC_PER_SEC })
      else
        -- Negative rollover (borrow).
        (cmn.ErrCode.OK,
          { tv_sec := dDeltaSec - 1, tv_nsec := dDeltaNsec + NSEC_PER_SEC })

end rt_time

namespace posix_clock

open rt_time cmn

/-- `MAX_SLEEP_COUNT` from posix_clock.cpp. -/
def MAX_SLEEP_COUNT : Nat := 3

/-- The Linux `EINTR` errno value, which `posix_clock.cpp` compares the
*return value* of `nanosleep` against (line 96). -/
def EINTR : Int := 4

/-- Outcome of one `nanosleep(&tSleepTime, &tRemainingTime)` call, as the OS
may produce it (POSIX semantics): full sleep, interruption by a signal with
a remaining time, or some other failure. -/
inductive SleepOutcome where
  | success
  | interrupted (remaining : Timespec)
  | otherFailure
  deriving DecidableEq, Repr

/-- POSIX return value of `nanosleep`: `0` on success, `-1` on interruption
by a signal (with `errno = EINTR`) and on any other failure. -/
def nanosleepRc : SleepOutcome → Int
  | .success => 0
  | .interrupted _ => -1
  | .otherFailure => -1

/-- `nanosleep` updates `*tRemainingTime` only when interrupted by a
signal; otherwise the prior contents stay. -/
def nanosleepRem (prior : Timespec) : SleepOutcome → Timespec
  | .interrupted r => r
  | _ => prior

/-- Result of the sleep/retry `do ... while` loop in `delayTest`
(posix_clock.cpp lines 87-115): either control falls through to the
measurement step (with the final `dSleepCount`), or the function returns
`ErrCode::TEST_FAILED`. -/
inductive SleepLoopResult where
  | proceed (sleepCount : Nat)
  | testFailed
  deriving DecidableEq, Repr

/-- The sleep/retry loop of `delayTest` (posix_clock.cpp lines 87-115),
driven by a list of OS outcomes (one per `nanosleep` call; `none` if the
supplied outcome trace is exhausted before the loop finishes).  Translated
branch by branch:
`if (dRc == 0) break; else if (dRc != EINTR) return TEST_FAILED;` then
`tSleepTime = tRemainingTime; ++dSleepCount;` and the `while` condition
`((rem.tv_sec > 0 || rem.tv_nsec > 0) && dSleepCount < MAX_SLEEP_COUNT)`. -/
def sleepRetryLoop (outcomes : List SleepOutcome)
    (_tSleepTime tRemainingTime : Timespec) (dSleepCount : Nat) :
    Option SleepLoopResult :=
  match outcomes with
  | [] => none
  | o :: rest =>
    let dRc := nanosleepRc o
    let tRem := nanosleepRem tRemainingTime o
    if dRc = 0 then
      some (.proceed dSleepCount)
    else if dRc ≠ EINTR then
      some .testFailed
    else
      let tSleepTime' := tRem
      let dSleepCount' := dSleepCount + 1
      if (tRem.tv_sec > 0 ∨ tRem.tv_nsec > 0) ∧ dSleepCount' < MAX_SLEEP_COUNT then
        sleepRetryLoop rest tSleepTime' tRem dSleepCount'
      else
        some (.proceed dSleepCount')

/-- `bIgnoreNegDeltaErrs` as computed at the top of `delayTest`
(posix_clock.cpp line 44): `reClockTypeId != ClockTypeId::MonotonicRaw`. -/
def bIgnoreNegDeltaErrs (reClockTypeId : ClockTypeId) : Bool :=
  reClockTypeId ≠ ClockTypeId.MonotonicRaw

/-- The REDUCE step of one `delayTest` iteration (posix_clock.cpp lines
123-135): two `timeDiffInTimespec` calls, both receiving
`bIgnoreNegDeltaErrs reClockTypeId`, each followed by
`if (tErr != OK && not bIgnoreNegDeltaErrs) return tErr;`.  Returns the
error code together with the contents of `tRtcDiff` and `tDelayError`
after the step. -/
def reduceStep (reClockTypeId : ClockTypeId)
    (tRtcStartTime tRtcStopTime tSleepRequested : Timespec)
    (tRtcDiffPrior tDelayErrorPrior : Timespec) :
    ErrCode × Timespec × Timespec :=
  let b := bIgnoreNegDeltaErrs reClockTypeId
  let r1 := timeDiffInTimespec tRtcStartTime tRtcStopTime tRtcDiffPrior b
  if r1.1 ≠ ErrCode.OK ∧ ¬ b then
    (r1.1, r1.2, tDelayErrorPrior)
  else
    let r2 := timeDiffInTimespec tSleepRequested r1.2 tDelayErrorPrior b
    if r2.1 ≠ ErrCode.OK ∧ ¬ b then
      (r2.1, r1.2, r2.2)
    else
      (ErrCode.OK, r1.2, r2.2)

end posix_clock

namespace threading

open cmn

/-- The five RET_ON_ERR-guarded configuration calls inside
`adjustScheduler` (threading.h lines 100-147), in attempt order. -/
inductive SchedStep where
  | SetInheritSched
  | SetSchedPolicy
  | SetAffinity
  | SetScheduler
  | SetSchedParam
  deriving DecidableEq, Repr

/-- OS oracle for `adjustScheduler`: the return code each underlying call
would produce, plus the value `sched_get_priority_max(policy)` returns. -/
structure SchedOs where
  setinheritschedRc : Int
  setschedpolicyRc : Int
  setaffinityRc : Int
  setschedulerRc : Int
  setschedparamRc : Int
  priorityMax : Int
  deriving DecidableEq, Repr

/-- The observable state of a `pthread_attr_t` bundle: which scheduling
fields have been set by a successful call (`none` = untouched since
`pthread_attr_init`).  The affinity mask is the set of CPU indices pushed
by the `CPU_SET` loop. -/
structure PthreadAttr where
  inheritsched : Option Int
  schedpolicy : Option Int
  affinity : Option (List Nat)
  schedparamPriority : Option Int
  deriving DecidableEq

/-- `pthread_attr_init`: a fresh bundle with no scheduling field set. -/
def pthreadAttrInit : PthreadAttr :=
  { inheritsched := none, schedpolicy := none, affinity := none,
    schedparamPriority := none }

/-- `PTHREAD_EXPLICIT_SCHED` (glibc value). -/
def PTHREAD_EXPLICIT_SCHED : Int := 1

/-- What a call to `adjustScheduler` produces: the returned error code, the
attribute bundle contents, the list of guarded calls actually attempted
(in order), and the policy/priority applied to the current thread by
`sched_setscheduler` (set only when that call succeeded). -/
structure SchedResult where
  code : ErrCode
  attr : PthreadAttr
  executed : List SchedStep
  currentThreadPolicy : Option Int
  currentThreadPriority : Option Int
  deriving DecidableEq

/-- `adjustScheduler` from threading.h (lines 100-147), translated call by
call.  Each `RET_ON_ERR(f, msg)` expands to
`if (dErr != 0) { log; return cmn::ErrCode::GENERAL_ERR; }`, so a failing
call returns `GENERAL_ERR` and skips everything after it.  The affinity
block runs only when `rtCpuSet` is non-empty; the `CPU_ZERO`/`CPU_SET`
loop turns the input set into the mask bound to the bundle.  The verbose
flag only logs and has no effect on the result. -/
def adjustScheduler (rtCpuSet : List Nat) (rtNewPolicy : Int)
    (os : SchedOs) (_rbVerbose : Bool) : SchedResult :=
  let attr0 := pthreadAttrInit
  if os.setinheritschedRc ≠ 0 then
    { code := ErrCode.GENERAL_ERR, attr := attr0,
      executed := [.SetInheritSched],
      currentThreadPolicy := none, currentThreadPriority := none }
  else
    let attr1 := { attr0 with inheritsched := some PTHREAD_EXPLICIT_SCHED }
    if os.setschedpolicyRc ≠ 0 then
      { code := ErrCode.GENERAL_ERR, attr := attr1,
        executed := [.SetInheritSched, .SetSchedPolicy],
        currentThreadPolicy := none, currentThreadPriority := none }
    else
      let attr2 := { attr1 with schedpolicy := some rtNewPolicy }
      -- If no CPU indices given - do not alter the currently active CPU set.
      let affinityExec : List SchedStep :=
        if rtCpuSet = [] then [] else [.SetAffinity]
      if rtCpuSet ≠ [] ∧ os.setaffinityRc ≠ 0 then
        { code := ErrCode.GENERAL_ERR, attr := attr2,
          executed := [.SetInheritSched, .SetSchedPolicy, .SetAffinity],
          currentThreadPolicy := none, currentThreadPriority := none }
      else
        let attr3 :=
          if rtCpuSet = [] then attr2 else { attr2 with affinity := some rtCpuSet }
        let prio := os.priorityMax
        if os.setschedulerRc ≠ 0 then
          { code := ErrCode.GENERAL_ERR, attr := attr3,
            executed := [.SetInheritSched, .SetSchedPolicy] ++ affinityExec
              ++ [.SetScheduler],
            currentThreadPolicy := none, currentThreadPriority := none }
        else
          if os.setschedparamRc ≠ 0 then
            { code := ErrCode.GENERAL_ERR, attr := attr3,
              executed := [.SetInheritSched, .SetSchedPolicy] ++ affinityExec
                ++ [.SetScheduler, .SetSchedParam],
              currentThreadPolicy := some rtNewPolicy,
              currentThreadPriority := some prio }
          else
            { code := ErrCode.OK,
              attr := { attr3 with schedparamPriority := some prio },
              executed := [.SetInheritSched, .SetSchedPolicy] ++ affinityExec
                ++ [.SetScheduler, .SetSchedParam],
              currentThreadPolicy := some rtNewPolicy,
              currentThreadPriority := some prio }

/-- Return code the oracle assigns to a given guarded call. -/
def stepRc (os : SchedOs) : SchedStep → Int
  | .SetInheritSched => os.setinheritschedRc
  | .SetSchedPolicy => os.setschedpolicyRc
  | .SetAffinity => os.setaffinityRc
  | .SetScheduler => os.setschedulerRc
  | .SetSchedParam => os.setschedparamRc

/-- The guarded calls `adjustScheduler` would attempt for a given CPU set,
in source order, if nothing failed. -/
def attemptOrder (rtCpuSet : List Nat) : List SchedStep :=
  [.SetInheritSched, .SetSchedPolicy]
    ++ (if rtCpuSet = [] then [] else [.SetAffinity])
    ++ [.SetScheduler, .SetSchedParam]

/-- Truncate a list of calls at the first one whose oracle code is
non-zero: that call is still attempted, the rest are not. -/
def execUntilFailure (os : SchedOs) : List SchedStep → List SchedStep
  | [] => []
  | s :: rest =>
    if stepRc os s ≠ 0 then [s] else s :: execUntilFailure os rest

/-- Does some guarded call that `adjustScheduler` would reach fail?
(The affinity call counts only when the CPU set is non-empty.) -/
def someStepFails (os : SchedOs) (rtCpuSet : List Nat) : Prop :=
  os.setinheritschedRc ≠ 0 ∨ os.setschedpolicyRc ≠ 0 ∨
    (rtCpuSet ≠ [] ∧ os.setaffinityRc ≠ 0) ∨
    os.setschedulerRc ≠ 0 ∨ os.setschedparamRc ≠ 0

instance (os : SchedOs) (s : List Nat) : Decidable (someStepFails os s) := by
  unfold someStepFails; infer_instance

end threading

open rt_time posix_clock threading cmn

/-- Claim C1, counterexample.  With start and stop in the same second, stop
10 ns earlier, and `ignoreNegative = true`, `timeDiffInTimespec` returns OK
but the output is whatever the out-parameter held before the call — here
`(7 s, 7 ns)`, not the zero Duration the claim requires. -/
theorem c1_ignored_negative_not_zeroed_cex :
    ((⟨5, 0⟩ : Timespec).tv_sec - (⟨5, 10⟩ : Timespec).tv_sec = 0) ∧
    ((⟨5, 0⟩ : Timespec).tv_nsec - (⟨5, 10⟩ : Timespec).tv_nsec < 0) ∧
    (timeDiffInTimespec ⟨5, 10⟩ ⟨5, 0⟩ ⟨7, 7⟩ true).1 = ErrCode.OK ∧
    (timeDiffInTimespec ⟨5, 10⟩ ⟨5, 0⟩ ⟨7, 7⟩ true).2 ≠ (⟨0, 0⟩ : Timespec) := by
  decide

/-- Claim C1, amended.  With a zero raw second-delta, a negative raw
nanosecond-delta and `ignoreNegative = true`, `timeDiffInTimespec` returns
OK and leaves the output Duration exactly as it was before the call (it is
a zero Duration only when the caller pre-zeroed it). -/
theorem c1_ignored_negative_returns_ok_output_unchanged
    (rtStart rtStop rtDiff : Timespec)
    (hsec : rtStop.tv_sec - rtStart.tv_sec = 0)
    (hnsec : rtStop.tv_nsec - rtStart.tv_nsec < 0) :
    timeDiffInTimespec rtStart rtStop rtDiff true = (ErrCode.OK, rtDiff) := by
  unfold timeDiffInTimespec
  simp [hsec, hnsec]

/-- Claim C1 amended, witness at start = (5 s, 10 ns), stop = (5 s, 0 ns),
prior output (7 s, 7 ns). -/
theorem c1_ignored_negative_returns_ok_output_unchanged_witness :
    timeDiffInTimespec ⟨5, 10⟩ ⟨5, 0⟩ ⟨7, 7⟩ true = (ErrCode.OK, ⟨7, 7⟩) :=
  c1_ignored_negative_returns_ok_output_unchanged ⟨5, 10⟩ ⟨5, 0⟩ ⟨7, 7⟩
    (by decide) (by decide)

/-- Claim C2.  For time points whose nanosecond fields are normalized to
`[0, 1e9)`, excluding the same-second negative-delta case,
`timeDiffInTimespec` returns OK and writes a Duration that exactly
represents stop − start, with its nanosecond component again in `[0, 1e9)`
(the function is non-recursive, so at most one carry or borrow correction
is applied by construction). -/
theorem c2_normalized_inputs_exact_difference
    (rtStart rtStop rtDiff : Timespec) (b : Bool)
    (hs0 : 0 ≤ rtStart.tv_nsec) (hs1 : rtStart.tv_nsec < NSEC_PER_SEC)
    (ht0 : 0 ≤ rtStop.tv_nsec) (ht1 : rtStop.tv_nsec < NSEC_PER_SEC)
    (hexcl : ¬(rtStop.tv_sec - rtStart.tv_sec = 0 ∧
      rtStop.tv_nsec - rtStart.tv_nsec < 0)) :
    (timeDiffInTimespec rtStart rtStop rtDiff b).1 = ErrCode.OK ∧
    (timeDiffInTimespec rtStart rtStop rtDiff b).2.tv_sec * NSEC_PER_SEC +
        (timeDiffInTimespec rtStart rtStop rtDiff b).2.tv_nsec =
      (rtStop.tv_sec - rtStart.tv_sec) * NSEC_PER_SEC +
        (rtStop.tv_nsec - rtStart.tv_nsec) ∧
    0 ≤ (timeDiffInTimespec rtStart rtStop rtDiff b).2.tv_nsec ∧
    (timeDiffInTimespec rtStart rtStop rtDiff b).2.tv_nsec < NSEC_PER_SEC := by
  simp only [timeDiffInTimespec, NSEC_PER_SEC] at *
  split_ifs <;>
    first
      | (exfalso; omega)
      | (refine ⟨rfl, ?_, ?_, ?_⟩ <;> simp <;> omega)

/-- Claim C2, witness at the spec's carry-property input:
start = (0 s, 9e8 ns), stop = (1 s, 2e8 ns) — borrow path, result
(0 s, 3e8 ns). -/
theorem c2_normalized_inputs_exact_difference_witness :
    (timeDiffInTimespec ⟨0, 900000000⟩ ⟨1, 200000000⟩ ⟨0, 0⟩ false).1 =
      ErrCode.OK ∧
    (timeDiffInTimespec ⟨0, 900000000⟩ ⟨1, 200000000⟩ ⟨0, 0⟩ false).2.tv_sec *
          NSEC_PER_SEC +
        (timeDiffInTimespec ⟨0, 900000000⟩ ⟨1, 200000000⟩ ⟨0, 0⟩
            false).2.tv_nsec =
      ((⟨1, 200000000⟩ : Timespec).tv_sec - (⟨0, 900000000⟩ : Timespec).tv_sec) *
          NSEC_PER_SEC +
        ((⟨1, 200000000⟩ : Timespec).tv_nsec -
          (⟨0, 900000000⟩ : Timespec).tv_nsec) ∧
    0 ≤ (timeDiffInTimespec ⟨0, 900000000⟩ ⟨1, 200000000⟩ ⟨0, 0⟩
        false).2.tv_nsec ∧
    (timeDiffInTimespec ⟨0, 900000000⟩ ⟨1, 200000000⟩ ⟨0, 0⟩ false).2.tv_nsec <
      NSEC_PER_SEC :=
  c2_normalized_inputs_exact_difference ⟨0, 900000000⟩ ⟨1, 200000000⟩ ⟨0, 0⟩
    false (by decide) (by decide) (by decide) (by decide) (by decide)

/-- Claim C5.  With a zero raw second-delta, a negative raw
nanosecond-delta and `ignoreNegative = false`, `timeDiffInTimespec` fails
with `OVERFLOW`. -/
theorem c5_same_second_negative_delta_overflow
    (rtStart rtStop rtDiff : Timespec)
    (hsec : rtStop.tv_sec - rtStart.tv_sec = 0)
    (hnsec : rtStop.tv_nsec - rtStart.tv_nsec < 0) :
    (timeDiffInTimespec rtStart rtStop rtDiff false).1 = ErrCode.OVERFLOW := by
  unfold timeDiffInTimespec
  simp [hsec, hnsec]

/-- Claim C5, witness at start = (5 s, 10 ns), stop = (5 s, 0 ns). -/
theorem c5_same_second_negative_delta_overflow_witness :
    (timeDiffInTimespec ⟨5, 10⟩ ⟨5, 0⟩ ⟨0, 0⟩ false).1 = ErrCode.OVERFLOW :=
  c5_same_second_negative_delta_overflow ⟨5, 10⟩ ⟨5, 0⟩ ⟨0, 0⟩
    (by decide) (by decide)

/-- Claim C6.  On the spec's rollover input start = (0 s, 1e8 ns),
stop = (0 s, 1.3e9 ns) — raw second-delta 0, raw nanosecond-delta
1.2e9 ≥ 1e9 — `timeDiffInTimespec` returns OK with (1 s, 2e8 ns),
whatever the prior output contents and the `ignoreNegative` flag. -/
theorem c6_same_second_rollover_corrected (rtDiff : Timespec) (b : Bool) :
    timeDiffInTimespec ⟨0, 100000000⟩ ⟨0, 1300000000⟩ rtDiff b =
      (ErrCode.OK, ⟨1, 200000000⟩) := by
  unfold timeDiffInTimespec
  norm_num [NSEC_PER_SEC]

/-- Claim C9.  Whenever `timeDiffInTimespec` returns `OVERFLOW`, the output
parameter still holds exactly its prior contents. -/
theorem c9_overflow_leaves_output_untouched
    (rtStart rtStop rtDiff : Timespec) (b : Bool)
    (h : (timeDiffInTimespec rtStart rtStop rtDiff b).1 = ErrCode.OVERFLOW) :
    (timeDiffInTimespec rtStart rtStop rtDiff b).2 = rtDiff := by
  simp only [timeDiffInTimespec, NSEC_PER_SEC, ErrCode.OVERFLOW, ErrCode.OK]
    at h ⊢
  split_ifs at h ⊢ <;> simp_all

/-- Claim C9, witness at start = (5 s, 10 ns), stop = (5 s, 0 ns), prior
output (7 s, 7 ns), `ignoreNegative = false`. -/
theorem c9_overflow_leaves_output_untouched_witness :
    (timeDiffInTimespec ⟨5, 10⟩ ⟨5, 0⟩ ⟨7, 7⟩ false).2 = (⟨7, 7⟩ : Timespec) :=
  c9_overflow_leaves_output_untouched ⟨5, 10⟩ ⟨5, 0⟩ ⟨7, 7⟩ false (by decide)

/-- Claim C10, counterexample.  Two calls with identical arguments
(start = (1 s, 1e8 ns), stop = (2 s, 1.5e9 ns), `ignoreNegative = true`)
but different prior output contents produce different outputs: the
multi-second rollover branch increments the prior `tv_sec` instead of
writing the second-delta, yielding (1 s, 4e8 ns) vs (6 s, 4e8 ns). -/
theorem c10_output_depends_on_prior_contents_cex :
    (timeDiffInTimespec ⟨1, 100000000⟩ ⟨2, 1500000000⟩ ⟨0, 0⟩ true).2 ≠
      (timeDiffInTimespec ⟨1, 100000000⟩ ⟨2, 1500000000⟩ ⟨5, 0⟩ true).2 := by
  decide

/-- Claim C10, amended.  The result of `timeDiffInTimespec` is determined
solely by start, stop and the flag, except on two paths that depend on the
output parameter's prior contents: (a) a zero second-delta with a negative
nanosecond-delta, where nothing is written and the prior contents persist;
(b) a non-zero second-delta with a nanosecond-delta above 1e9, where
`tv_sec` is incremented from its prior value. -/
theorem c10_deterministic_outside_prior_sensitive_paths
    (rtStart rtStop d1 d2 : Timespec) (b : Bool)
    (hneg : ¬(rtStop.tv_sec - rtStart.tv_sec = 0 ∧
      rtStop.tv_nsec - rtStart.tv_nsec < 0))
    (hroll : ¬(rtStop.tv_sec - rtStart.tv_sec ≠ 0 ∧
      rtStop.tv_nsec - rtStart.tv_nsec > NSEC_PER_SEC)) :
    timeDiffInTimespec rtStart rtStop d1 b =
      timeDiffInTimespec rtStart rtStop d2 b := by
  simp only [timeDiffInTimespec, NSEC_PER_SEC] at *
  split_ifs <;> first | rfl | (exfalso; omega)

/-- Claim C10 amended, witness: same-second positive delta, two different
prior contents, equal results. -/
theorem c10_deterministic_outside_prior_sensitive_paths_witness :
    timeDiffInTimespec ⟨0, 0⟩ ⟨0, 5⟩ ⟨1, 1⟩ false =
      timeDiffInTimespec ⟨0, 0⟩ ⟨0, 5⟩ ⟨2, 2⟩ false :=
  c10_deterministic_outside_prior_sensitive_paths ⟨0, 0⟩ ⟨0, 5⟩ ⟨1, 1⟩ ⟨2, 2⟩
    false (by decide) (by decide)

/-- Claim C3.  The spec (and the code's own comments) say an interrupted
sleep is ordinary behavior that is retried with the remaining time, but the
code compares the return value of `nanosleep` (which is `-1` when a signal
interrupts the sleep, with `errno = EINTR`) against the errno constant
`EINTR` itself, so a single interruption makes `delayTest` return
`TEST_FAILED` instead of retrying: the retry branch is unreachable under
the POSIX return convention. -/
theorem c3_interrupted_sleep_returns_test_failed :
    sleepRetryLoop [SleepOutcome.interrupted ⟨0, 5000000⟩]
      ⟨0, 10000000⟩ ⟨0, 0⟩ 0 = some SleepLoopResult.testFailed := by
  decide

/-- Claim C4, counterexample.  When the very first guarded call
(`pthread_attr_setinheritsched`) fails, `adjustScheduler` stops — but the
code it returns is `GENERAL_ERR` (the code `RET_ON_ERR` hands back), not
`SCHED_FAILURE` as the claim states. -/
theorem c4_failure_code_is_general_err_cex :
    (⟨-22, 0, 0, 0, 0, 99⟩ : SchedOs).setinheritschedRc ≠ 0 ∧
    (adjustScheduler [] 1 ⟨-22, 0, 0, 0, 0, 99⟩ false).code ≠
      ErrCode.SCHED_FAILURE := by
  decide

/-- Claim C4, amended.  If any of the five guarded configuration calls
fails (the affinity call being reached only for a non-empty CPU set), the
calls after it are not attempted — the executed list is exactly the
attempt order truncated at the first failure — and `adjustScheduler`
returns `GENERAL_ERR` (the code produced by `RET_ON_ERR`), not
`SCHED_FAILURE`. -/
theorem c4_step_failure_aborts_with_general_err
    (rtCpuSet : List Nat) (rtNewPolicy : Int) (os : SchedOs) (v : Bool)
    (h : someStepFails os rtCpuSet) :
    (adjustScheduler rtCpuSet rtNewPolicy os v).code = ErrCode.GENERAL_ERR ∧
    (adjustScheduler rtCpuSet rtNewPolicy os v).executed =
      execUntilFailure os (attemptOrder rtCpuSet) := by
  by_cases hcs : rtCpuSet = [] <;>
  by_cases h1 : os.setinheritschedRc = 0 <;>
  by_cases h2 : os.setschedpolicyRc = 0 <;>
  by_cases h3 : os.setaffinityRc = 0 <;>
  by_cases h4 : os.setschedulerRc = 0 <;>
  by_cases h5 : os.setschedparamRc = 0 <;>
    simp_all [adjustScheduler, attemptOrder, execUntilFailure, stepRc,
      someStepFails]

/-- Claim C4 amended, witness: CPU set `[2]`, affinity call fails — the
scheduler and sched-param calls are not attempted and the result is
`GENERAL_ERR`. -/
theorem c4_step_failure_aborts_with_general_err_witness :
    (adjustScheduler [2] 1 ⟨0, 0, -1, 0, 0, 99⟩ false).code =
      ErrCode.GENERAL_ERR ∧
    (adjustScheduler [2] 1 ⟨0, 0, -1, 0, 0, 99⟩ false).executed =
      execUntilFailure ⟨0, 0, -1, 0, 0, 99⟩ (attemptOrder [2]) :=
  c4_step_failure_aborts_with_general_err [2] 1 ⟨0, 0, -1, 0, 0, 99⟩ false
    (by decide)

/-- Claim C7.  The `ignoreNegative` flag `delayTest` passes to both
`timeDiffInTimespec` calls of its REDUCE step is false exactly for the
monotonic-raw clock and true for every other clock selector. -/
theorem c7_ignore_negative_iff_not_monotonic_raw (c : ClockTypeId) :
    (bIgnoreNegDeltaErrs c = true ↔ c ≠ ClockTypeId.MonotonicRaw) ∧
    (bIgnoreNegDeltaErrs c = false ↔ c = ClockTypeId.MonotonicRaw) := by
  cases c <;> decide

/-- Claim C8.  Calling `adjustScheduler` with an empty CPU set never
attempts the affinity call and never binds an affinity mask to the
attribute bundle, while the other four configuration calls are still
performed (all four, whenever none of them fails). -/
theorem c8_empty_cpu_set_skips_affinity_only
    (rtNewPolicy : Int) (os : SchedOs) (v : Bool) :
    SchedStep.SetAffinity ∉ (adjustScheduler [] rtNewPolicy os v).executed ∧
    (adjustScheduler [] rtNewPolicy os v).attr.affinity = none ∧
    ((os.setinheritschedRc = 0 ∧ os.setschedpolicyRc = 0 ∧
      os.setschedulerRc = 0 ∧ os.setschedparamRc = 0) →
      (adjustScheduler [] rtNewPolicy os v).executed =
        [SchedStep.SetInheritSched, SchedStep.SetSchedPolicy,
          SchedStep.SetScheduler, SchedStep.SetSchedParam]) := by
  by_cases h1 : os.setinheritschedRc = 0 <;>
  by_cases h2 : os.setschedpolicyRc = 0 <;>
  by_cases h4 : os.setschedulerRc = 0 <;>
  by_cases h5 : os.setschedparamRc = 0 <;>
    simp_all [adjustScheduler, pthreadAttrInit]

/-- Claim C8, witness: empty CPU set, every call succeeding. -/
theorem c8_empty_cpu_set_skips_affinity_only_witness :
    SchedStep.SetAffinity ∉
      (adjustScheduler [] 1 ⟨0, 0, 0, 0, 0, 99⟩ false).executed ∧
    (adjustScheduler [] 1 ⟨0, 0, 0, 0, 0, 99⟩ false).attr.affinity = none ∧
    (adjustScheduler [] 1 ⟨0, 0, 0, 0, 0, 99⟩ false).executed =
      [SchedStep.SetInheritSched, SchedStep.SetSchedPolicy,
        SchedStep.SetScheduler, SchedStep.SetSchedParam] :=
  ⟨(c8_empty_cpu_set_skips_affinity_only 1 ⟨0, 0, 0, 0, 0, 99⟩ false).1,
    (c8_empty_cpu_set_skips_affinity_only 1 ⟨0, 0, 0, 0, 0, 99⟩ false).2.1,
    (c8_empty_cpu_set_skips_affinity_only 1 ⟨0, 0, 0, 0, 0, 99⟩ false).2.2
      (by decide)⟩
